import Mathlib

/-
Verification of the state-synchronization core of mic-monitor-tray.py.

The Python source is shallowly embedded: each pactl invocation is represented
by its observable outcome, an optional `PactlResult` (none models a raised
FileNotFoundError / TimeoutExpired inside _run_pactl, i.e. the call did not
complete; `some r` carries the return code and the stdout text).  Pure parsing
helpers become Lean functions on strings; the module-level mutable state
(active_modules, default_source_name, ...) becomes explicit arguments and
results.  Python string operations are modelled structurally on the character
list of a string so that every definition evaluates by kernel reduction:
`splitOnChar '\n'` models str.splitlines on newline-separated text (they agree
up to a trailing empty line, which every consumer below ignores), and
`containsL` models the Python `in` substring test.
-/

namespace MicMonitor

/-- Outcome of a completed pactl subprocess: return code and captured stdout.
A call that did not complete (missing binary, timeout) is `none` at use sites. -/
structure PactlResult where
  returncode : Int
  stdout : String
deriving DecidableEq

/-- Python lowercasing of a string, on its character list. -/
def lowerL (cs : List Char) : List Char :=
  cs.map Char.toLower

/-- Python `needle in hay` (substring containment) on character lists. -/
def containsL (hay needle : List Char) : Bool :=
  needle.isPrefixOf hay ||
    match hay with
    | [] => false
    | _ :: t => containsL t needle

/-- Split a character list at every occurrence of a separator character
(Python str.split with a one-character separator). -/
def splitOnChar (sep : Char) : List Char → List (List Char)
  | [] => [[]]
  | c :: rest =>
    match splitOnChar sep rest with
    | [] => [[]]
    | h :: t => if c = sep then [] :: h :: t else (c :: h) :: t

/-- Python str.strip on a character list: drop whitespace from both ends. -/
def trimL (cs : List Char) : List Char :=
  ((cs.dropWhile Char.isWhitespace).reverse.dropWhile Char.isWhitespace).reverse

/-- Python str.endswith on character lists. -/
def endsWithL (cs suf : List Char) : Bool :=
  suf.reverse.isPrefixOf cs.reverse

/-- The lines of a pactl stdout text, as character lists. -/
def stdoutLines (s : String) : List (List Char) :=
  splitOnChar '\n' s.data

/-- The name filter of get_short_sources (line 139 of the source):
keeps a name iff it contains "input" and not "monitor", case-insensitively. -/
def keepSourceName (name : List Char) : Bool :=
  containsL (lowerL name) "input".data && !(containsL (lowerL name) "monitor".data)

/-- Embeds get_short_sources (lines 130-141): on a failed call (no result or a
nonzero return code) returns the empty list; otherwise splits stdout into lines,
takes the second tab-separated field of each line that has at least two fields,
and keeps the names passing the input/monitor filter. -/
def get_short_sources (result : Option PactlResult) : List String :=
  match result with
  | none => []
  | some r =>
    if r.returncode ≠ 0 then []
    else
      (stdoutLines r.stdout).filterMap (fun line =>
        match splitOnChar '\t' line with
        | _ :: name :: _ => if keepSourceName name then some (⟨name⟩ : String) else none
        | _ => none)

/-- The raw second tab-separated fields of a listing, before the name filter
(the candidate names the loop of get_short_sources inspects). -/
def rawSecondFields (s : String) : List String :=
  (stdoutLines s).filterMap (fun line =>
    match splitOnChar '\t' line with
    | _ :: name :: _ => some (⟨name⟩ : String)
    | _ => none)

theorem filterMap_keep_eq_filter (L : List (List Char)) :
    L.filterMap (fun line =>
      match splitOnChar '\t' line with
      | _ :: name :: _ => if keepSourceName name then some (⟨name⟩ : String) else none
      | _ => none) =
    (L.filterMap (fun line =>
      match splitOnChar '\t' line with
      | _ :: name :: _ => some (⟨name⟩ : String)
      | _ => none)).filter (fun s => keepSourceName s.data) := by
  induction L with
  | nil => rfl
  | cons line rest ih =>
    simp only [List.filterMap_cons]
    cases hsplit : splitOnChar '\t' line with
    | nil => simpa using ih
    | cons p ps =>
      cases ps with
      | nil => simpa using ih
      | cons name qs =>
        by_cases hk : keepSourceName name
        · simp [hk, List.filter_cons, ih]
        · simp [hk, List.filter_cons, ih]

/-- C9: enumeration keeps exactly the raw names that contain "input" and do not
contain "monitor" (case-insensitively); the concrete three-name listing yields
exactly ["alsa_input.mic0"]; and a failed call (no result, or a nonzero return
code) yields the empty list. -/
theorem get_short_sources_spec :
    (∀ s : String,
      get_short_sources (some ⟨0, s⟩) =
        (rawSecondFields s).filter (fun n => keepSourceName n.data))
  ∧ get_short_sources none = []
  ∧ (∀ r : PactlResult, r.returncode ≠ 0 → get_short_sources (some r) = [])
  ∧ get_short_sources (some ⟨0,
      "0\talsa_input.mic0\tPipeWire\n1\talsa_output.monitor\tPipeWire\n2\talsa_input.mic0.monitor\tPipeWire"⟩)
      = ["alsa_input.mic0"] := by
  refine ⟨fun s => ?_, rfl, fun r hr => ?_, by decide⟩
  · simp only [get_short_sources, rawSecondFields]
    rw [if_neg (by simp)]
    exact filterMap_keep_eq_filter (stdoutLines s)
  · simp only [get_short_sources]
    rw [if_pos hr]

theorem get_short_sources_spec_witness :
    get_short_sources (some ⟨1, "0\talsa_input.mic0"⟩) = [] :=
  get_short_sources_spec.2.2.1 ⟨1, "0\talsa_input.mic0"⟩ (by decide)

/-
The Active Module Map (the module-level dict active_modules, source name →
pactl module id) is modelled as an association list with unique keys, in
insertion order, exactly the information a Python dict holds.  dict.get is a
first-match lookup, dict.pop removes the key (on a unique-key list, filtering
all pairs with that key), and assignment to an absent key appends the pair.
-/

/-- Python active_modules.get(source_name): first value stored under the key. -/
def lookupModule (s : String) (m : List (String × Int)) : Option Int :=
  (m.find? (fun p => p.1 == s)).map Prod.snd

/-- Python active_modules.pop(source_name, None): drop the entry for the key. -/
def removeModule (s : String) (m : List (String × Int)) : List (String × Int) :=
  m.filter (fun p => p.1 != s)

/-- Embeds toggle_source (lines 297-311), with the external gateway calls
enable_monitor / disable_monitor passed in as oracles (their observable
behaviour).  If the source has an entry, disable_monitor is called and its
result is ignored: the entry is removed unconditionally.  Otherwise
enable_monitor is called, and the entry is inserted only when it returns an id.
Returns the new map. -/
def toggle_source (enable_monitor : String → Option Int)
    (disable_monitor : Int → Bool) (source_name : String)
    (m : List (String × Int)) : List (String × Int) :=
  match lookupModule source_name m with
  | some current_id =>
    let _ := disable_monitor current_id
    removeModule source_name m
  | none =>
    match enable_monitor source_name with
    | some new_id => m ++ [(source_name, new_id)]
    | none => m

theorem lookupModule_eq_none_iff (s : String) (m : List (String × Int)) :
    lookupModule s m = none ↔ ∀ p ∈ m, (p.1 == s) = false := by
  simp [lookupModule, List.find?_eq_none]

theorem removeModule_of_lookup_none (s : String) (m : List (String × Int))
    (h : lookupModule s m = none) : removeModule s m = m := by
  rw [lookupModule_eq_none_iff] at h
  refine List.filter_eq_self.mpr (fun p hp => ?_)
  have hne : ¬ p.1 = s := by simpa using h p hp
  simp [hne]

theorem find?_eq_none_of_lookup_none (s : String) (m : List (String × Int))
    (h : lookupModule s m = none) :
    m.find? (fun p => p.1 == s) = none := by
  cases hf : m.find? (fun p => p.1 == s) with
  | none => rfl
  | some p => rw [lookupModule, hf] at h; simp at h

theorem lookupModule_append_single (s : String) (m : List (String × Int))
    (i : Int) (h : lookupModule s m = none) :
    lookupModule s (m ++ [(s, i)]) = some i := by
  have hf := find?_eq_none_of_lookup_none s m h
  simp [lookupModule, List.find?_append, hf]

theorem lookupModule_removeModule (s : String) (m : List (String × Int)) :
    lookupModule s (removeModule s m) = none := by
  have hf : (removeModule s m).find? (fun p => p.1 == s) = none := by
    rw [List.find?_eq_none]
    intro p hp
    have hps := List.of_mem_filter hp
    simpa using hps
  simp [lookupModule, hf]

/-- C1: with the gateway stubbed to always succeed, a toggle on an Idle source
inserts exactly that source's entry with the handle the gateway returned, and a
second toggle leaves the map without an entry for the source. -/
theorem toggle_source_idle_twice (enable_monitor : String → Option Int)
    (disable_monitor : Int → Bool) (s : String) (m : List (String × Int))
    (handle : Int)
    (hidle : lookupModule s m = none)
    (hen : enable_monitor s = some handle)
    (hdis : ∀ i, disable_monitor i = true) :
    toggle_source enable_monitor disable_monitor s m = m ++ [(s, handle)] ∧
    lookupModule s
      (toggle_source enable_monitor disable_monitor s
        (toggle_source enable_monitor disable_monitor s m)) = none := by
  have h1 : toggle_source enable_monitor disable_monitor s m = m ++ [(s, handle)] := by
    simp [toggle_source, hidle, hen]
  refine ⟨h1, ?_⟩
  rw [h1]
  have h2 : toggle_source enable_monitor disable_monitor s (m ++ [(s, handle)]) =
      removeModule s (m ++ [(s, handle)]) := by
    simp [toggle_source, lookupModule_append_single s m handle hidle]
  rw [h2]
  exact lookupModule_removeModule s (m ++ [(s, handle)])

theorem toggle_source_idle_twice_witness :
    toggle_source (fun _ => some 42) (fun _ => true) "A" [] = [("A", 42)] ∧
    lookupModule "A"
      (toggle_source (fun _ => some 42) (fun _ => true) "A"
        (toggle_source (fun _ => some 42) (fun _ => true) "A" [])) = none := by
  have h := toggle_source_idle_twice (fun _ => some 42) (fun _ => true) "A" []
    42 rfl rfl (fun _ => rfl)
  simpa using h

/-- C2: a toggle on a Monitoring source removes its entry from the map whatever
the outcome of disable_monitor (success, failure, or nonexistent handle): after
the toggle the source is never present in the map. -/
theorem toggle_source_monitoring_removes (enable_monitor : String → Option Int)
    (disable_monitor : Int → Bool) (s : String) (m : List (String × Int))
    (handle : Int) (hmon : lookupModule s m = some handle) :
    lookupModule s (toggle_source enable_monitor disable_monitor s m) = none := by
  have h1 : toggle_source enable_monitor disable_monitor s m = removeModule s m := by
    simp [toggle_source, hmon]
  rw [h1]
  exact lookupModule_removeModule s m

theorem toggle_source_monitoring_removes_witness :
    lookupModule "A"
      (toggle_source (fun _ => none) (fun _ => false) "A" [("A", 7)]) = none :=
  toggle_source_monitoring_removes (fun _ => none) (fun _ => false) "A"
    [("A", 7)] 7 rfl

/-
Shutdown.  quit_app (lines 394-414) runs straight-line Python: set the mute
poll stop event, terminate the audio subprocess, snapshot the dict under the
lock, call disable_monitor on every snapshotted handle (ignoring each result:
disable_monitor is total, every pactl failure is absorbed inside _run_pactl),
clear the dict under the lock, and stop the icon loop.  The embedding makes the
trace explicit: the returned list records the handles passed to disable_monitor,
in order, and the final state records the cleared map and the stopped flags.
-/

/-- The module-level shared state that quit_app touches. -/
structure AppState where
  active_modules : List (String × Int)
  mute_poll_stop : Bool
  audio_running : Bool
  icon_running : Bool
deriving DecidableEq

/-- Embeds quit_app (lines 394-414).  Returns the final state paired with the
list of module ids passed to disable_monitor. -/
def quit_app (disable_monitor : Int → Bool) (st : AppState) :
    AppState × List Int :=
  let st1 : AppState := { st with mute_poll_stop := true, audio_running := false }
  let modules_to_unload := st1.active_modules
  let _results := modules_to_unload.map (fun p => disable_monitor p.2)
  let st2 : AppState := { st1 with active_modules := [] }
  ({ st2 with icon_running := false }, modules_to_unload.map Prod.snd)

/-- C3: whatever the outcomes of the disable_monitor calls (disable_monitor is
an arbitrary oracle, so all-fail is included), quit_app issues a call for every
handle that was in the Active Module Map at that moment, drives the map to
empty, and still reaches the stop of the UI loop. -/
theorem quit_app_spec (disable_monitor : Int → Bool) (st : AppState) :
    (quit_app disable_monitor st).2 = st.active_modules.map Prod.snd ∧
    (quit_app disable_monitor st).1.active_modules = [] ∧
    (quit_app disable_monitor st).1.icon_running = false := by
  refine ⟨rfl, rfl, rfl⟩

/-
Mute-state resolution.  get_default_source_muted (lines 184-194) first reads
the stored default source name; an empty name short-circuits to False with no
external call.  Otherwise it issues the direct query `pactl get-source-mute`;
only when that call fails (no result or nonzero return code) does it fall back
to _get_mute_from_list, which scans the full `pactl list sources` text.  The
embedding also returns the list of external commands issued, so that claims
about which calls happen are statable.
-/

/-- The two external queries get_default_source_muted may issue. -/
inductive PactlCall where
  | getSourceMute
  | listSources
deriving DecidableEq

/-- Embeds the line scanner of _get_mute_from_list (lines 172-181).  The state
in_source is recomputed at every "Name:" line as a substring test of the whole
stripped line against the source name; a "Mute:" line while in_source answers
with the substring test for "yes".  The source's final elif (break on a second
"Name:" line) is kept although the first branch makes it unreachable. -/
def muteScan (source_name : List Char) : List (List Char) → Bool → Bool
  | [], _ => false
  | line :: rest, in_source =>
    if "Name:".data.isPrefixOf (trimL line) then
      muteScan source_name rest (containsL (trimL line) source_name)
    else if in_source && "Mute:".data.isPrefixOf (trimL line) then
      containsL (lowerL (trimL line)) "yes".data
    else if in_source && "Name:".data.isPrefixOf (trimL line) then
      false
    else
      muteScan source_name rest in_source

/-- Embeds _get_mute_from_list (lines 167-181): False on a failed listing call,
otherwise the scan over the listing's lines starting outside any block. -/
def get_mute_from_list (source_name : String) (result : Option PactlResult) : Bool :=
  match result with
  | none => false
  | some r =>
    if r.returncode ≠ 0 then false
    else muteScan source_name.data (stdoutLines r.stdout) false

/-- Embeds the direct-query answer parse of get_default_source_muted (lines
192-194): strip and lowercase stdout, then accept "yes" or a ": yes" suffix. -/
def parseDirectMuteOutput (stdout_text : String) : Bool :=
  lowerL (trimL stdout_text.data) == "yes".data ||
    endsWithL (lowerL (trimL stdout_text.data)) ": yes".data

/-- Embeds get_default_source_muted (lines 184-194) over the stored default
source name and the outcomes of the two possible external calls; also returns
the list of external commands actually issued, in order. -/
def get_default_source_muted (default_source_name : String)
    (direct listing : Option PactlResult) : Bool × List PactlCall :=
  if default_source_name = "" then (false, [])
  else
    match direct with
    | none =>
      (get_mute_from_list default_source_name listing,
        [PactlCall.getSourceMute, PactlCall.listSources])
    | some r =>
      if r.returncode ≠ 0 then
        (get_mute_from_list default_source_name listing,
          [PactlCall.getSourceMute, PactlCall.listSources])
      else
        (parseDirectMuteOutput r.stdout, [PactlCall.getSourceMute])

/-- The value of a "Name:" field: the text after the five characters of the
"Name:" label, stripped. -/
def nameFieldValue (stripped : List Char) : List Char :=
  trimL (stripped.drop 5)

/-- Specification-side scanner for the fallback mute scan, following the
spec's words: the Mute: field must lie inside the block whose Name: line names
exactly the requested source, and a block ends at the next Name: line (entering
the next block recomputes membership, so a later Mute: field is never
attributed to the previous block). -/
def specMuteScan (source_name : List Char) : List (List Char) → Bool → Bool
  | [], _ => false
  | line :: rest, in_block =>
    if "Name:".data.isPrefixOf (trimL line) then
      specMuteScan source_name rest (nameFieldValue (trimL line) == source_name)
    else if in_block && "Mute:".data.isPrefixOf (trimL line) then
      containsL (lowerL (trimL line)) "yes".data
    else
      specMuteScan source_name rest in_block

/-- Specification-side counterpart of _get_mute_from_list over the same call
outcome, built on the exact-name scanner. -/
def specMuteFromList (source_name : String) (result : Option PactlResult) : Bool :=
  match result with
  | none => false
  | some r =>
    if r.returncode ≠ 0 then false
    else specMuteScan source_name.data (stdoutLines r.stdout) false

/-- C10: with an empty stored default-source name, get_default_source_muted
answers False and issues no external command at all. -/
theorem get_default_source_muted_empty_default (direct listing : Option PactlResult) :
    get_default_source_muted "" direct listing = (false, []) := rfl

/-- C4 counterexample: the direct query completes (return code 0) with output
"garbage", unparseable as a mute answer; the code answers False after issuing
only the direct query — it never consults the listing, whose scan would have
answered True. -/
theorem direct_mute_unparseable_counterexample :
    get_default_source_muted "mic0" (some ⟨0, "garbage"⟩)
        (some ⟨0, "Name: mic0\nMute: yes"⟩) =
      (false, [PactlCall.getSourceMute]) ∧
    get_mute_from_list "mic0" (some ⟨0, "Name: mic0\nMute: yes"⟩) = true := by
  decide

/-- C4 amended: the fallback to the full-listing scan happens exactly when the
direct query fails to complete (no result, or a nonzero return code); a
completed direct query settles the answer by parsing its own output alone (an
unparseable output therefore yields False), with no fallback. -/
theorem get_default_source_muted_two_tier (src : String)
    (direct listing : Option PactlResult) (hsrc : ¬ src = "") :
    ((direct = none ∨ ∃ r, direct = some r ∧ r.returncode ≠ 0) →
      get_default_source_muted src direct listing =
        (get_mute_from_list src listing,
          [PactlCall.getSourceMute, PactlCall.listSources])) ∧
    (∀ r : PactlResult, direct = some r → r.returncode = 0 →
      get_default_source_muted src direct listing =
        (parseDirectMuteOutput r.stdout, [PactlCall.getSourceMute])) := by
  constructor
  · rintro (rfl | ⟨r, rfl, hr⟩)
    · simp [get_default_source_muted, hsrc]
    · simp [get_default_source_muted, hsrc, hr]
  · rintro r rfl hr
    simp [get_default_source_muted, hsrc, hr]

theorem get_default_source_muted_two_tier_witness :
    get_default_source_muted "mic0" none none =
      (false, [PactlCall.getSourceMute, PactlCall.listSources]) := by
  have h := (get_default_source_muted_two_tier "mic0" none none (by decide)).1
    (Or.inl rfl)
  simpa using h

/-- C5 counterexample: scanning for source "mic0" in a listing whose first
block is the distinct source "a.mic0.monitor" (with "Mute: yes") followed by
the block of "mic0" itself (with "Mute: no").  The substring test makes the
scan enter the wrong block and return True — the Mute: field of a different
source's block — while the exact-block reading of the spec answers False. -/
theorem mute_scan_cross_block_counterexample :
    get_mute_from_list "mic0"
        (some ⟨0, "\tName: a.mic0.monitor\n\tMute: yes\n\tName: mic0\n\tMute: no"⟩) = true ∧
    specMuteFromList "mic0"
        (some ⟨0, "\tName: a.mic0.monitor\n\tMute: yes\n\tName: mic0\n\tMute: no"⟩) = false := by
  decide

theorem muteScan_eq_specMuteScan (sn : List Char) (lines : List (List Char))
    (hn : ∀ line ∈ lines, "Name:".data.isPrefixOf (trimL line) = true →
      containsL (trimL line) sn = (nameFieldValue (trimL line) == sn)) :
    ∀ b : Bool, muteScan sn lines b = specMuteScan sn lines b := by
  induction lines with
  | nil => intro b; rfl
  | cons line rest ih =>
    intro b
    have hhead := hn line (List.mem_cons_self _ _)
    have htail : ∀ l ∈ rest, "Name:".data.isPrefixOf (trimL l) = true →
        containsL (trimL l) sn = (nameFieldValue (trimL l) == sn) :=
      fun l hl => hn l (List.mem_cons_of_mem _ hl)
    by_cases h1 : "Name:".data.isPrefixOf (trimL line) = true
    · simp only [muteScan, specMuteScan, if_pos h1, hhead h1]
      exact ih htail _
    · by_cases h2 : (b && "Mute:".data.isPrefixOf (trimL line)) = true
      · simp only [muteScan, specMuteScan, if_neg h1, if_pos h2]
      · have h3 : (b && "Name:".data.isPrefixOf (trimL line)) = false := by
          simp [Bool.and_eq_true, h1]
        simp only [muteScan, specMuteScan, if_neg h1, if_neg h2, h3,
          Bool.false_eq_true, if_false]
        exact ih htail b

/-- C5 amended: the scan enters a block via a substring test of the stripped
Name: line against the source name, so a different source's Mute: field can be
returned when that source's Name: line contains the requested name as a
substring; whenever the substring test agrees with exact Name:-value equality
on every Name: line of the listing (in particular when no other source's name
contains the requested name), the scan coincides with the spec's exact-block
scan, which stops at the next source boundary. -/
theorem get_mute_from_list_amended (source_name : String) (r : PactlResult)
    (hn : ∀ line ∈ stdoutLines r.stdout,
      "Name:".data.isPrefixOf (trimL line) = true →
      containsL (trimL line) source_name.data =
        (nameFieldValue (trimL line) == source_name.data)) :
    get_mute_from_list source_name (some r) = specMuteFromList source_name (some r) := by
  by_cases hr : r.returncode ≠ 0
  · simp [get_mute_from_list, specMuteFromList, hr]
  · simp only [get_mute_from_list, specMuteFromList, if_neg hr]
    exact muteScan_eq_specMuteScan source_name.data (stdoutLines r.stdout) hn false

theorem get_mute_from_list_amended_witness :
    get_mute_from_list "mic0" (some ⟨0, "Name: mic0\nMute: yes"⟩) =
      specMuteFromList "mic0" (some ⟨0, "Name: mic0\nMute: yes"⟩) :=
  get_mute_from_list_amended "mic0" ⟨0, "Name: mic0\nMute: yes"⟩ (by decide)

/-
Rendering.  update_icon (lines 282-288) captures count, muted and audio under
the lock, then rasterizes with (count > 0, audio, muted) and sets the title
string.  The embedding returns the rasterizer arguments and the title computed
from one captured snapshot.
-/

/-- Embeds update_icon (lines 282-288) applied to the shared state it captures:
the rasterizer argument triple (monitoring, audio_active, muted) and the title
string set alongside the icon. -/
def update_icon (active_modules : List (String × Int)) (is_muted audio_active : Bool) :
    (Bool × Bool × Bool) × String :=
  ((active_modules.length > 0, audio_active, is_muted),
    if active_modules.length > 0 then
      "Mic Monitor: ON (" ++ toString active_modules.length ++ " active)"
    else
      "Mic Monitor: OFF")

/-- C6 counterexample: with one active module the title set by the code is
"Mic Monitor: ON (1 active)", not the claimed "Monitoring: ON (1 active)";
with none it is "Mic Monitor: OFF", not "Monitoring: OFF". -/
theorem update_icon_title_counterexample :
    (update_icon [("A", 42)] false false).2 ≠ "Monitoring: ON (1 active)" ∧
    (update_icon [] false false).2 ≠ "Monitoring: OFF" := by
  decide

/-- C6 amended: for every render, the title equals
"Mic Monitor: ON (<count> active)" when the captured active-module count is
positive (with <count> the captured count) and "Mic Monitor: OFF" when the
count is zero. -/
theorem update_icon_title_spec (active_modules : List (String × Int))
    (is_muted audio_active : Bool) :
    (0 < active_modules.length →
      (update_icon active_modules is_muted audio_active).2 =
        "Mic Monitor: ON (" ++ toString active_modules.length ++ " active)") ∧
    (active_modules.length = 0 →
      (update_icon active_modules is_muted audio_active).2 = "Mic Monitor: OFF") := by
  constructor
  · intro h
    simp [update_icon, h]
  · intro h
    simp [update_icon, h]

theorem update_icon_title_spec_witness :
    (update_icon [("A", 42)] false false).2 = "Mic Monitor: ON (1 active)" := by
  have h := (update_icon_title_spec [("A", 42)] false false).1 (by decide)
  simpa using h

/-
Audio activity.  _audio_level_loop (lines 244-273) decides activity per 100 ms
window by rms > _AUDIO_THRESHOLD with rms = sqrt(sum(s*s)/n) over the n int16
samples of the window (n >= 1: empty reads are skipped).  Since the square root
is nonnegative, the decision is equivalent to: always active for a negative
threshold, and mean-square > threshold^2 otherwise.  The embedding uses this
square-free form over exact rationals so that it evaluates by kernel
reduction; the bridging fact to the literal sqrt comparison is proved as part
of the claim's theorem.
-/

/-- Sum of squared samples of a window. -/
def sumSq (samples : List Int) : Int :=
  (samples.map (fun s => s * s)).sum

/-- Mean square of a window (the square of the code's rms value), exact. -/
def rmsSq (samples : List Int) : ℚ :=
  (sumSq samples : ℚ) / (samples.length : ℚ)

/-- Embeds the activity decision rms > _AUDIO_THRESHOLD of line 268, in the
equivalent square-free form. -/
def audio_active_decision (samples : List Int) (threshold : ℚ) : Bool :=
  if threshold < 0 then true else decide (threshold ^ 2 < rmsSq samples)

theorem sumSq_nonneg (samples : List Int) : 0 ≤ sumSq samples := by
  induction samples with
  | nil => simp [sumSq]
  | cons s rest ih =>
    simp only [sumSq, List.map_cons, List.sum_cons]
    have hs : 0 ≤ s * s := mul_self_nonneg s
    have := ih
    simp only [sumSq] at this
    omega

theorem rmsSq_nonneg (samples : List Int) : 0 ≤ rmsSq samples := by
  have h1 : (0 : ℚ) ≤ (sumSq samples : ℚ) := by exact_mod_cast sumSq_nonneg samples
  have h2 : (0 : ℚ) ≤ (samples.length : ℚ) := by positivity
  exact div_nonneg h1 h2

/-- C8: the activity decision is the strict comparison rms > threshold with
rms the square root of the window's mean square (first conjunct); a window
whose rms equals exactly the threshold yields false, and windows whose rms is
threshold - 1 and threshold + 1 yield false and true respectively. -/
theorem audio_threshold_boundary (t : ℚ) (w0 w1 w2 : List Int) (ht : 1 ≤ t)
    (h0 : rmsSq w0 = t ^ 2)
    (h1 : rmsSq w1 = (t - 1) ^ 2)
    (h2 : rmsSq w2 = (t + 1) ^ 2) :
    (∀ w : List Int, audio_active_decision w t = true ↔
      (t : ℝ) < Real.sqrt ((rmsSq w : ℚ) : ℝ)) ∧
    audio_active_decision w0 t = false ∧
    audio_active_decision w1 t = false ∧
    audio_active_decision w2 t = true := by
  have ht0 : (0 : ℚ) ≤ t := le_trans (by norm_num) ht
  have hnotneg : ¬ t < 0 := not_lt.mpr ht0
  refine ⟨fun w => ?_, ?_, ?_, ?_⟩
  · rw [audio_active_decision, if_neg hnotneg]
    have hrw : (0 : ℝ) ≤ ((rmsSq w : ℚ) : ℝ) := by
      exact_mod_cast rmsSq_nonneg w
    have ht0' : (0 : ℝ) ≤ ((t : ℚ) : ℝ) := by exact_mod_cast ht0
    constructor
    · intro h
      have hq : t ^ 2 < rmsSq w := of_decide_eq_true h
      have hr : ((t : ℚ) : ℝ) ^ 2 < ((rmsSq w : ℚ) : ℝ) := by exact_mod_cast hq
      calc ((t : ℚ) : ℝ) = Real.sqrt (((t : ℚ) : ℝ) ^ 2) := by
            rw [Real.sqrt_sq ht0']
        _ < Real.sqrt ((rmsSq w : ℚ) : ℝ) := by
            exact Real.sqrt_lt_sqrt (by positivity) hr
    · intro h
      refine decide_eq_true ?_
      have hr : ((t : ℚ) : ℝ) ^ 2 < ((rmsSq w : ℚ) : ℝ) := by
        calc ((t : ℚ) : ℝ) ^ 2 < Real.sqrt ((rmsSq w : ℚ) : ℝ) ^ 2 := by
              exact pow_lt_pow_left₀ h ht0' (by norm_num)
          _ = ((rmsSq w : ℚ) : ℝ) := Real.sq_sqrt hrw
      exact_mod_cast hr
  · rw [audio_active_decision, if_neg hnotneg, h0]
    simp
  · rw [audio_active_decision, if_neg hnotneg, h1]
    have : (t - 1) ^ 2 ≤ t ^ 2 := by nlinarith
    simp only [decide_eq_false_iff_not, not_lt]
    exact this
  · rw [audio_active_decision, if_neg hnotneg, h2]
    have : t ^ 2 < (t + 1) ^ 2 := by nlinarith
    simp only [decide_eq_true_eq]
    exact this

theorem audio_threshold_boundary_witness :
    audio_active_decision [400] 400 = false ∧
    audio_active_decision [399] 400 = false ∧
    audio_active_decision [401] 400 = true := by
  have h := audio_threshold_boundary 400 [400] [399] [401] (by norm_num)
    (by norm_num [rmsSq, sumSq]) (by norm_num [rmsSq, sumSq])
    (by norm_num [rmsSq, sumSq])
  exact ⟨h.2.1, h.2.2.1, h.2.2.2⟩

/-
Configuration loading.  load_config (lines 59-77) writes a default file when
the path is missing; otherwise it parses the file with configparser and then,
inside a try that catches ValueError and configparser.Error, assigns the three
colors and the threshold in order, printing a warning and keeping the remaining
defaults when an assignment fails.  Crucially, cfg.read itself sits on line 70,
OUTSIDE that try.  The embedding models the file as its list of lines (none =
missing file) and configparser.read as a line-structured INI parse that fails
with MissingSectionHeaderError on an option line before any section header
(verbatim configparser behaviour; continuation lines, interpolation and
duplicate detection are not needed by the inputs considered and are left out).
Every hexadecimal or float literal is parsed over plain digit strings, the
forms the defaults and the documented values use.
-/

/-- Hexadecimal digit test, as accepted by Python int(s, 16). -/
def isHexDigit (c : Char) : Bool :=
  c.isDigit || ('a' ≤ c && c ≤ 'f') || ('A' ≤ c && c ≤ 'F')

/-- Value of one hexadecimal digit. -/
def hexDigitVal (c : Char) : Nat :=
  if c.isDigit then c.toNat - '0'.toNat
  else if 'a' ≤ c && c ≤ 'f' then c.toNat - 'a'.toNat + 10
  else c.toNat - 'A'.toNat + 10

/-- Python int(s, 16) on a plain digit string: fails (ValueError) on an empty
string or a non-hex character. -/
def hexVal? (cs : List Char) : Option Nat :=
  if cs = [] then none
  else if cs.all isHexDigit then
    some (cs.foldl (fun a c => 16 * a + hexDigitVal c) 0)
  else none

/-- Embeds _hex_to_rgba (lines 54-56): strip, remove leading '#' characters,
and parse the three byte slices h[0:2], h[2:4], h[4:6]; any slice Python's int
rejects makes the whole conversion raise ValueError, modelled as none. -/
def hex_to_rgba (hex_str : String) : Option (Nat × Nat × Nat × Nat) :=
  match hexVal? (((trimL hex_str.data).dropWhile (· == '#')).take 2),
        hexVal? ((((trimL hex_str.data).dropWhile (· == '#')).drop 2).take 2),
        hexVal? ((((trimL hex_str.data).dropWhile (· == '#')).drop 4).take 2) with
  | some r, some g, some b => some (r, g, b, 255)
  | _, _, _ => none

/-- Value of a plain decimal digit string. -/
def digitsVal (cs : List Char) : Nat :=
  cs.foldl (fun a c => 10 * a + (c.toNat - '0'.toNat)) 0

/-- Sign carried by an optional leading '-' after stripping. -/
def floatSign (cs : List Char) : ℚ :=
  match cs with
  | '-' :: _ => -1
  | _ => 1

/-- Python float(s) on plain decimal literals: optional sign, digits with an
optional fractional part (at least one digit overall); anything else raises
ValueError, modelled as none. -/
def parseFloat? (s : String) : Option ℚ :=
  match splitOnChar '.'
      ((trimL s.data).dropWhile (fun c => c == '+' || c == '-')) with
  | [ip] =>
    if ip ≠ [] ∧ ip.all Char.isDigit then
      some (floatSign (trimL s.data) * digitsVal ip)
    else none
  | [ip, fp] =>
    if (ip ++ fp) ≠ [] ∧ (ip ++ fp).all Char.isDigit then
      some (floatSign (trimL s.data) *
        (digitsVal ip + (digitsVal fp : ℚ) / (10 : ℚ) ^ fp.length))
    else none
  | _ => none

/-- Find the position of the first '=' or ':' delimiter of an option line. -/
def findDelim (cs : List Char) : Option Nat :=
  cs.findIdx? (fun c => c == '=' || c == ':')

/-- One step of the configparser read loop: the parsed options as a flat list
of (section, option key lowercased and stripped, value stripped) triples, or
the exception configparser.read raises.  Blank and comment lines are skipped;
a section header line replaces the current section; an option line outside any
section raises MissingSectionHeaderError; a non-blank line without a delimiter
raises ParsingError. -/
def iniReadFrom (cur : Option String) (acc : List (String × String × String)) :
    List (List Char) → Except String (List (String × String × String))
  | [] => Except.ok acc.reverse
  | line :: rest =>
    if trimL line = [] then iniReadFrom cur acc rest
    else if "#".data.isPrefixOf (trimL line) || ";".data.isPrefixOf (trimL line) then
      iniReadFrom cur acc rest
    else if "[".data.isPrefixOf (trimL line) && endsWithL (trimL line) "]".data then
      iniReadFrom (some (⟨((trimL line).drop 1).dropLast⟩ : String)) acc rest
    else
      match findDelim (trimL line) with
      | some i =>
        match cur with
        | none => Except.error "MissingSectionHeaderError"
        | some sec =>
          iniReadFrom cur
            ((sec, (⟨lowerL (trimL ((trimL line).take i))⟩ : String),
              (⟨trimL ((trimL line).drop (i + 1))⟩ : String)) :: acc) rest
      | none => Except.error "ParsingError"

/-- Embeds configparser.ConfigParser().read on the file's lines. -/
def iniRead (lines : List String) : Except String (List (String × String × String)) :=
  iniReadFrom none [] (lines.map String.data)

/-- Embeds cfg.get(section, option, fallback): the stored value of the option
in the section, or the fallback string when absent. -/
def cfgGet (opts : List (String × String × String)) (sec key fb : String) : String :=
  match opts.find? (fun t => t.1 == sec && t.2.1 == key) with
  | some t => t.2.2
  | none => fb

/-- The loaded configuration: the three icon colors and the RMS threshold. -/
structure Config where
  active : Nat × Nat × Nat × Nat
  inactive : Nat × Nat × Nat × Nat
  accent : Nat × Nat × Nat × Nat
  threshold : ℚ
deriving DecidableEq

/-- The built-in defaults of lines 23-28. -/
def defaultConfig : Config :=
  { active := (80, 220, 80, 255)
    inactive := (180, 180, 180, 255)
    accent := (220, 60, 60, 255)
    threshold := 400 }

/-- Embeds the try block of lines 71-77: the four assignments run in order;
the first failing parse aborts the rest (the caught exception), leaving the
earlier assignments in place and the defaults for the unassigned fields.
Returns the resulting configuration and whether the warning was printed. -/
def applyConfigFields (opts : List (String × String × String)) : Config × Bool :=
  match hex_to_rgba (cfgGet opts "colors" "active" "#50DC50") with
  | none => (defaultConfig, true)
  | some a =>
    match hex_to_rgba (cfgGet opts "colors" "inactive" "#B4B4B4") with
    | none => ({ defaultConfig with active := a }, true)
    | some i =>
      match hex_to_rgba (cfgGet opts "colors" "accent" "#DC3C3C") with
      | none => ({ defaultConfig with active := a, inactive := i }, true)
      | some ac =>
        match parseFloat? (cfgGet opts "audio" "threshold" "400") with
        | none =>
          ({ defaultConfig with active := a, inactive := i, accent := ac }, true)
        | some th =>
          ({ active := a, inactive := i, accent := ac, threshold := th }, false)

/-- What a call of load_config does, as observed by its caller. -/
inductive LoadOutcome where
  | createdDefaultFile (cfg : Config)
  | loaded (cfg : Config) (warned : Bool)
  | raised (e : String)
deriving DecidableEq

/-- Embeds load_config (lines 59-77) on the configuration file content (none =
missing file).  A missing file is created with the documented defaults and the
built-in defaults stay in effect.  Otherwise cfg.read runs OUTSIDE the
try/except of lines 71-76, so an exception it raises propagates to the caller;
only the field assignments are protected. -/
def load_config (file : Option (List String)) : LoadOutcome :=
  match file with
  | none => LoadOutcome.createdDefaultFile defaultConfig
  | some lines =>
    match iniRead lines with
    | Except.error e => LoadOutcome.raised e
    | Except.ok opts =>
      match applyConfigFields opts with
      | (c, warned) => LoadOutcome.loaded c warned

/-- C7 evaluated at the failing input: a configuration file whose first line is
an option line with no preceding section header makes load_config raise
MissingSectionHeaderError to its caller (cfg.read is outside the try block),
instead of falling back to the defaults with a warning.  For contrast, the
missing-file path and a well-formed file with a malformed value behave as the
claim says: the default file is created, and the malformed threshold falls
back to the built-in default with a warning. -/
theorem load_config_raises_on_headerless_file :
    load_config (some ["threshold = 400"]) =
      LoadOutcome.raised "MissingSectionHeaderError" ∧
    load_config none = LoadOutcome.createdDefaultFile defaultConfig ∧
    load_config (some ["[audio]", "threshold = oops"]) =
      LoadOutcome.loaded defaultConfig true := by
  decide

end MicMonitor
